import Mathlib

/-!
Verification of the Thali_CordovaPlugin discovery / notification-beacon /
replication-orchestration layer.

The development shallowly embeds the JavaScript sources
thaliNotificationBeacons.js and thaliManager.js.  Node buffers are modelled
as lists of natural numbers; the cryptographic primitives (secp256k1 ECDH,
SHA-256, HKDF, HMAC, AES) are packaged in a CryptoSuite record whose
algebraic properties (the ones the real primitives enjoy) are collected in
the GoodCrypto predicate.  Fallible JavaScript code (throw) is embedded as
Except values.
-/

/-- A Node.js Buffer, modelled as a list of bytes. -/
abbrev Buffer := List Nat

/-- JavaScript Buffer.slice(a, b): the bytes from index a (inclusive) to
b (exclusive), clamped to the buffer bounds. -/
def bslice (l : Buffer) (a b : Nat) : Buffer :=
  (l.drop a).take (b - a)

/-- Source constant ONE_DAY = 86400000 (thaliNotificationBeacons.js line 13).
Note the value is one day in milliseconds although it is compared against a
parameter documented to be in seconds. -/
def ONE_DAY : Int := 86400000

/-- Buffer.writeInt32BE: the four big-endian bytes of the 32-bit twos
complement representation of an integer. -/
def writeInt32BE (x : Int) : Buffer :=
  let u := (x % (2 ^ 32 : Int)).toNat
  [u / 2 ^ 24 % 256, u / 2 ^ 16 % 256, u / 2 ^ 8 % 256, u % 256]

/-- Read four bytes as a big-endian unsigned 32-bit value. -/
def readUInt32 (b0 b1 b2 b3 : Nat) : Nat :=
  b0 * 2 ^ 24 + b1 * 2 ^ 16 + b2 * 2 ^ 8 + b3

/-- Buffer.readInt32BE: big-endian signed 32-bit read. -/
def readInt32 (b0 b1 b2 b3 : Nat) : Int :=
  let u := readUInt32 b0 b1 b2 b3
  if u < 2 ^ 31 then (u : Int) else (u : Int) - 2 ^ 32

/-- The 8-byte expiration field written by generatePreambleAndBeacons:
Long.fromNumber(secondsUntilExpiration), the high 32 bits written
big-endian at offset 0 and the low 32 bits at offset 4. -/
def encodeExpiration (t : Int) : Buffer :=
  let u := (t % (2 ^ 64 : Int)).toNat
  writeInt32BE ((u / 2 ^ 32 : Nat) : Int) ++ writeInt32BE ((u % 2 ^ 32 : Nat) : Int)

/-- The decoding performed by parseBeacons lines 172-174:
Long.fromBits(readInt32BE(4), readInt32BE(0)).toNumber(), i.e. signed high
word times 2^32 plus unsigned low word. -/
def decodeExpiration (b : Buffer) : Int :=
  let hi := readInt32 (b.getD 0 0) (b.getD 1 0) (b.getD 2 0) (b.getD 3 0)
  let lo := readUInt32 (b.getD 4 0) (b.getD 5 0) (b.getD 6 0) (b.getD 7 0)
  hi * 2 ^ 32 + lo

/-- An ECDH keypair; the public key is derived from the private scalar by
the suite's pubOf function. -/
structure Keypair where
  priv : Nat
deriving DecidableEq

/-- The cryptographic primitives used by thaliNotificationBeacons.js.
pubOf is ECDH key derivation (generateKeys / getPublicKey), ecdh is
computeSecret, hkdf is HKDF(SHA256, ikm, salt).derive(emptyInfo, 32),
hmac is HMAC-SHA256, and aesEnc / aesDec are the aes128 cipher used via
createCipheriv / createDecipheriv (decryption can fail, hence Option). -/
structure CryptoSuite where
  pubOf : Nat → Buffer
  ecdh : Nat → Buffer → Buffer
  sha256 : Buffer → Buffer
  hkdf : Buffer → Buffer → Buffer
  hmac : Buffer → Buffer → Buffer
  aesEnc : Buffer → Buffer → Buffer → Buffer
  aesDec : Buffer → Buffer → Buffer → Option Buffer

/-- Properties the real primitives have and on which the beacon codec
relies: output sizes, commutativity of the ECDH shared secret, and that
decryption inverts encryption under the same key and IV. -/
structure GoodCrypto (C : CryptoSuite) : Prop where
  pub_len : ∀ p, (C.pubOf p).length = 65
  sha_len : ∀ b, (C.sha256 b).length = 32
  hmac_len : ∀ k m, (C.hmac k m).length = 32
  enc_len : ∀ k iv pt, pt.length = 16 → (C.aesEnc k iv pt).length = 32
  ecdh_comm : ∀ a b, C.ecdh a (C.pubOf b) = C.ecdh b (C.pubOf a)
  dec_enc : ∀ k iv pt, pt.length = 16 → C.aesDec k iv (C.aesEnc k iv pt) = some pt

/-- createPublicKeyHash (thaliNotificationBeacons.js lines 26-31): the
first 16 bytes of the SHA-256 digest of a public key. -/
def createPublicKeyHash (C : CryptoSuite) (ecdhPublicKey : Buffer) : Buffer :=
  (C.sha256 ecdhPublicKey).take 16

/-- Errors thrown by generatePreambleAndBeacons. -/
inductive GenError where
  | publicKeysNull
  | ecdhNull
  | argumentRange
deriving DecidableEq

/-- The per-recipient beacon built in the forEach loop of
generatePreambleAndBeacons (lines 77-110): AES ciphertext of the
unencrypted key id followed by the 16-byte beacon HMAC. -/
def buildBeacon (C : CryptoSuite) (kxPriv kePriv : Nat) (expirationBuffer : Buffer)
    (unencryptedKeyId pubKy : Buffer) : Buffer :=
  let sxy := C.ecdh kxPriv pubKy
  let hkxy := C.hkdf sxy expirationBuffer
  let beaconHmac := (C.hmac hkxy expirationBuffer).take 16
  let sey := C.ecdh kePriv pubKy
  let keyingMaterial := C.hkdf sey expirationBuffer
  let iv := keyingMaterial.take 16
  let hkey := bslice keyingMaterial 16 32
  C.aesEnc hkey iv unencryptedKeyId ++ beaconHmac

/-- generatePreambleAndBeacons (thaliNotificationBeacons.js lines 45-113).
The ephemeral keypair generated by crypto.createECDH is passed explicitly
as ke.  Null arguments are modelled as none; the JavaScript return null for
an empty recipient list is modelled as ok none. -/
def generatePreambleAndBeacons (C : CryptoSuite)
    (publicKeysToNotify : Option (List Buffer)) (ecdhForLocalDevice : Option Keypair)
    (ke : Keypair) (secondsUntilExpiration : Int) :
    Except GenError (Option Buffer) :=
  match publicKeysToNotify with
  | none => .error .publicKeysNull
  | some keys =>
    match ecdhForLocalDevice with
    | none => .error .ecdhNull
    | some kx =>
      if secondsUntilExpiration < 0 ∨ secondsUntilExpiration > ONE_DAY then
        .error .argumentRange
      else if keys.length = 0 then
        .ok none
      else
        let pubKe := C.pubOf ke.priv
        let expirationBuffer := encodeExpiration secondsUntilExpiration
        let unencryptedKeyId := createPublicKeyHash C (C.pubOf kx.priv)
        let beacons := keys.map
          (buildBeacon C kx.priv ke.priv expirationBuffer unencryptedKeyId)
        .ok (some (pubKe ++ expirationBuffer ++ beacons.flatten))

/-- Errors thrown by parseBeacons. -/
inductive ParseError where
  | malformedPublicKey
  | malformedExpiration
  | expirationOutOfRange
  | malformedBeaconKeyId
deriving DecidableEq

/-- The body of one iteration of the parseBeacons loop (lines 186-247) on a
full 48-byte slice: derive the keying material from the preamble public
key, attempt decryption, look the decrypted key id up in the address book
and check the beacon HMAC.  Returns the decrypted key id on a full match
and none when the beacon is skipped. -/
def matchBeacon (C : CryptoSuite) (pubKe expiration : Buffer) (localPriv : Nat)
    (addressBookCallback : Buffer → Option Buffer)
    (encryptedBeaconKeyId : Buffer) : Option Buffer :=
  let sey := C.ecdh localPriv pubKe
  let keyingMaterial := C.hkdf sey expiration
  let iv := keyingMaterial.take 16
  let hkey := bslice keyingMaterial 16 32
  match C.aesDec hkey iv (encryptedBeaconKeyId.take 32) with
  | none => none
  | some unencryptedKeyId =>
    match addressBookCallback unencryptedKeyId with
    | none => none
    | some pubKx =>
      let beaconHmac := bslice encryptedBeaconKeyId 32 48
      let sxy := C.ecdh localPriv pubKx
      let hkxy := C.hkdf sxy expiration
      let otherBeaconHmac := (C.hmac hkxy expiration).take 16
      if beaconHmac = otherBeaconHmac then some unencryptedKeyId else none

/-- The for loop of parseBeacons (lines 179-250), expressed on the part of
the stream from offset 73 onwards.  Each iteration reads a 48-byte slice
(throwing when the final slice is short), skips beacons whose decryption,
address-book lookup or HMAC check fails, and returns the first match. -/
def parseLoop (C : CryptoSuite) (pubKe expiration : Buffer) (localPriv : Nat)
    (addressBookCallback : Buffer → Option Buffer) (rest : Buffer) :
    Except ParseError (Option Buffer) :=
  if h : rest = [] then
    .ok none
  else
    let encryptedBeaconKeyId := rest.take 48
    if encryptedBeaconKeyId.length ≠ 48 then
      .error .malformedBeaconKeyId
    else
      match matchBeacon C pubKe expiration localPriv addressBookCallback
          encryptedBeaconKeyId with
      | some unencryptedKeyId => .ok (some unencryptedKeyId)
      | none =>
        parseLoop C pubKe expiration localPriv addressBookCallback (rest.drop 48)
termination_by rest.length
decreasing_by
  simp only [List.length_drop]
  have hpos : 0 < rest.length := List.length_pos.mpr h
  omega

/-- parseBeacons (thaliNotificationBeacons.js lines 148-251).  A null beacon
stream returns null; a short preamble public key, a short expiration field,
or an out-of-range expiration throw; otherwise the stream is scanned in
48-byte slices from offset 73. -/
def parseBeacons (C : CryptoSuite) (beaconStreamWithPreAmble : Option Buffer)
    (ecdhForLocalDevice : Keypair)
    (addressBookCallback : Buffer → Option Buffer) :
    Except ParseError (Option Buffer) :=
  match beaconStreamWithPreAmble with
  | none => .ok none
  | some s =>
    let pubKe := bslice s 0 65
    if pubKe.length ≠ 65 then
      .error .malformedPublicKey
    else
      let expiration := bslice s 65 73
      if expiration.length ≠ 8 then
        .error .malformedExpiration
      else
        let expirationLong := decodeExpiration expiration
        if expirationLong < 0 ∨ expirationLong > ONE_DAY then
          .error .expirationOutOfRange
        else
          parseLoop C pubKe expiration ecdhForLocalDevice.priv addressBookCallback
            (s.drop 73)

/-- The beacon part of a well-formed stream split into consecutive 48-byte
slices, mirroring the offsets the parseBeacons loop visits. -/
def chunks48 (l : Buffer) : List Buffer :=
  if h : l = [] then [] else l.take 48 :: chunks48 (l.drop 48)
termination_by l.length
decreasing_by
  simp only [List.length_drop]
  have hpos : 0 < l.length := List.length_pos.mpr h
  omega

/-- Modelled from the spec: thaliConfig.BEACON_KEY is not under src.  Per
the spec (sections 4.6 and 6, and the comment at thaliManager.js lines
58-59) the beacon secret is a binary array of 16 zero bytes. -/
def BEACON_KEY : Buffer := List.replicate 16 0

/-- The per-request PSK role assigned by the first ThaliManager middleware. -/
inductive Role where
  | beacon
  | replication
  | publicRole
deriving DecidableEq

/-- HTTP responses produced by the admission middlewares. -/
inductive Response where
  | unauthorized401
  | forbidden403
  | handledByDb
deriving DecidableEq

/-- The first middleware installed by the ThaliManager constructor
(thaliManager.js lines 44-83): a request on an unauthorized TLS connection
is answered 401; otherwise the secret resolved from the PSK identity picks
the role: BEACON_KEY gives beacon, any other non-null secret gives
replication, and a null secret gives public.  Buffer identity comparison in
the source is modelled as value equality. -/
def roleAssignmentMiddleware (getPskIdToSecret : Nat → Option Buffer)
    (authorized : Bool) (pskIdentity : Nat) : Except Response Role :=
  if authorized then
    match getPskIdToSecret pskIdentity with
    | some secret =>
      if secret = BEACON_KEY then .ok .beacon else .ok .replication
    | none => .ok .publicRole
  else
    .error .unauthorized401

/-- The id validator the ThaliManager constructor passes to salti
(thaliManager.js lines 88-94): it compares the path id against the value
returned by getPskIdToPublicKey for the caller's PSK identity, without
hashing it.  A null lookup makes the comparison false. -/
def saltiIdValidator (getPskIdToPublicKey : Nat → Option Buffer)
    (pskIdentity : Nat) (thaliId : Buffer) : Bool :=
  match getPskIdToPublicKey pskIdentity with
  | some pk => thaliId = pk
  | none => false

/-- Modelled from the spec: the salti library and
ThaliSendNotificationBasedOnReplication.getPskIdToPublicKey are not under
src.  Per the spec (sections 4.6 and 6) getPskIdToPublicKey maps a
recognized PSK identity to the full remote public key stored at beacon
generation, and for a replication-role request on a path of the form
/db/_local/<LOCAL_SEQ_POINT_PREFIX><id> salti consults the configured id
validator on <id> and rejects the request with 403 when it returns false.
The validator itself is the one from the source (saltiIdValidator). -/
def localSeqGate (getPskIdToPublicKey : Nat → Option Buffer)
    (pskIdentity : Nat) (thaliId : Buffer) : Option Response :=
  if saltiIdValidator getPskIdToPublicKey pskIdentity thaliId then
    none
  else
    some .forbidden403

/-- The stages of the router built by the ThaliManager constructor, in
their registration order: the role-assignment middleware (lines 44-83), the
salti ACL gate (lines 85-97), then the express-pouchdb database router
(lines 121-123). -/
inductive Stage where
  | roleAssignment
  | aclGate
  | dbRouter
deriving DecidableEq

/-- The middleware chain of the ThaliManager router, as the sequential
composition of its three stages in registration order.  The salti gate and
the database router are abstract parameters (external libraries); the
returned trace records which stages the request reached. -/
def thaliRouterPipeline {Req : Type} (getPskIdToSecret : Nat → Option Buffer)
    (aclGate : Role → Req → Bool) (dbRouter : Req → Response)
    (authorized : Bool) (pskIdentity : Nat) (req : Req) :
    List Stage × Response :=
  match roleAssignmentMiddleware getPskIdToSecret authorized pskIdentity with
  | .error resp => ([.roleAssignment], resp)
  | .ok role =>
    if aclGate role req then
      ([.roleAssignment, .aclGate, .dbRouter], dbRouter req)
    else
      ([.roleAssignment, .aclGate], .forbidden403)

/-- The link-layer transports feeding the peer registry. -/
inductive ConnectionType where
  | tcpNative
  | bluetooth
  | multiPeerConnectivity
deriving DecidableEq

/-- A raw peer event from one of the transports, carrying the tuple the
registry debounces on. -/
structure RawPeerEvent where
  peerId : Nat
  connectionType : ConnectionType
  hostAddress : Option Nat
  portNumber : Option Nat
  generation : Nat
  available : Bool
deriving DecidableEq

/-- The cached registry entry for a (connectionType, peerId) key. -/
structure RegistryEntry where
  hostAddress : Option Nat
  portNumber : Option Nat
  generation : Nat
deriving DecidableEq

/-- The registry cache, keyed by (connectionType, peerId). -/
abbrev RegistryState := ConnectionType × Nat → Option RegistryEntry

/-- An outbound peerAvailabilityChanged event. -/
structure PeerStatus where
  peerId : Nat
  connectionType : ConnectionType
  generation : Nat
  available : Bool
  newAddressPort : Option Bool
deriving DecidableEq

/-- The cache entry recorded for an accepted available observation. -/
def entryOfEvent (e : RawPeerEvent) : RegistryEntry :=
  ⟨e.hostAddress, e.portNumber, e.generation⟩

/-- Modelled from the spec: the peer registry (thaliMobile.js) is not under
src, only its tests are.  Per the spec (section 4.5) an available
observation identical in (hostAddress, portNumber, generation) to the
cached entry is ignored; otherwise acceptance is gated by connection type:
MPCF accepts only a strictly greater generation while Bluetooth and Wi-Fi
accept the observation. -/
def acceptObservation (entry : RegistryEntry) (e : RawPeerEvent) : Bool :=
  if entry.hostAddress = e.hostAddress ∧ entry.portNumber = e.portNumber ∧
      entry.generation = e.generation then
    false
  else
    match e.connectionType with
    | .multiPeerConnectivity => entry.generation < e.generation
    | _ => true

/-- Modelled from the spec (section 4.5): newAddressPort is true on an
emitted availability transition exactly when host or port changed against
the prior cached entry. -/
def newAddressPortFlag (old : RegistryEntry) (e : RawPeerEvent) : Bool :=
  decide (old.hostAddress ≠ e.hostAddress ∨ old.portNumber ≠ e.portNumber)

/-- Modelled from the spec: the peer registry event handler (thaliMobile.js
is not under src).  Per the spec (section 4.5 state machine): a first
available observation caches the entry and emits with newAddressPort false;
an accepted re-observation updates the cache and emits with the change
flag; an ignored observation emits nothing; an unavailable observation
removes a cached entry and emits with newAddressPort null, and is ignored
when nothing is cached.  Timers are not modelled (no time passes between
consecutive events). -/
def handleRawPeerEvent (st : RegistryState) (e : RawPeerEvent) :
    RegistryState × List PeerStatus :=
  let key := (e.connectionType, e.peerId)
  if e.available then
    match st key with
    | none =>
      (fun k => if k = key then some (entryOfEvent e) else st k,
       [⟨e.peerId, e.connectionType, e.generation, true, some false⟩])
    | some entry =>
      if acceptObservation entry e then
        (fun k => if k = key then some (entryOfEvent e) else st k,
         [⟨e.peerId, e.connectionType, e.generation, true,
           some (newAddressPortFlag entry e)⟩])
      else
        (st, [])
  else
    match st key with
    | some _ =>
      (fun k => if k = key then none else st k,
       [⟨e.peerId, e.connectionType, e.generation, false, none⟩])
    | none => (st, [])

/-- Decidable equality of embedded results, used to evaluate the codec on
concrete inputs. -/
instance {e a : Type} [DecidableEq e] [DecidableEq a] : DecidableEq (Except e a) := fun
  | .error x, .error y =>
    if h : x = y then isTrue (by rw [h]) else
      isFalse (by intro hh; injection hh; exact h (by assumption))
  | .error _, .ok _ => isFalse (by intro hh; cases hh)
  | .ok _, .error _ => isFalse (by intro hh; cases hh)
  | .ok x, .ok y =>
    if h : x = y then isTrue (by rw [h]) else
      isFalse (by intro hh; injection hh; exact h (by assumption))

/-- The composition of generator and parser used to state the round-trip
property: none when generation throws, otherwise the outcome of parsing the
generated stream with the given local keypair and address book. -/
def parseOfGenerate (C : CryptoSuite) (publicKeysToNotify : Option (List Buffer))
    (localKx : Option Keypair) (ke : Keypair) (t : Int) (ld : Keypair)
    (addr : Buffer → Option Buffer) : Option (Except ParseError (Option Buffer)) :=
  match generatePreambleAndBeacons C publicKeysToNotify localKx ke t with
  | .error _ => none
  | .ok r => some (parseBeacons C r ld addr)

/-- A concrete computable instantiation of the cryptographic primitives,
used to evaluate the codec on concrete inputs.  It satisfies the algebraic
properties collected in GoodCrypto. -/
def toySuite : CryptoSuite where
  pubOf p := List.replicate 64 0 ++ [p]
  ecdh p q := [p * q.sum]
  sha256 b := b.length :: b.sum :: List.replicate 30 0
  hkdf ikm salt := ikm.sum :: salt.sum :: List.replicate 30 1
  hmac k m := k.sum :: m.sum :: List.replicate 30 2
  aesEnc k iv pt := pt ++ k.sum :: iv.sum :: List.replicate 14 3
  aesDec k iv ct :=
    if ct.length = 32 ∧ bslice ct 16 18 = [k.sum, iv.sum] then
      some (ct.take 16)
    else
      none

/-- The toy suite satisfies the algebraic properties of the real
primitives. -/
theorem toySuite_good : GoodCrypto toySuite := by
  constructor
  · intro p
    simp [toySuite]
  · intro b
    simp [toySuite]
  · intro k m
    simp [toySuite]
  · intro k iv pt h
    simp [toySuite, h]
  · intro a b
    simp [toySuite]
    ring
  · intro k iv pt h
    have hdrop : (pt ++ k.sum :: iv.sum :: List.replicate 14 3).drop 16 =
        k.sum :: iv.sum :: List.replicate 14 3 := List.drop_left' h
    have htake : (pt ++ k.sum :: iv.sum :: List.replicate 14 3).take 16 = pt :=
      List.take_left' h
    simp [toySuite, bslice, hdrop, htake, h]

/-- The expiration field written by the generator is 8 bytes long. -/
theorem encodeExpiration_length (t : Int) : (encodeExpiration t).length = 8 := by
  simp [encodeExpiration, writeInt32BE]

/-- Reading the expiration field back as the parser does recovers the
original value for every expiration the generator accepts. -/
theorem decodeExpiration_encodeExpiration (t : Int) (h0 : 0 ≤ t) (h1 : t ≤ ONE_DAY) :
    decodeExpiration (encodeExpiration t) = t := by
  obtain ⟨n, rfl⟩ : ∃ n : Nat, t = (n : Int) := ⟨t.toNat, (Int.toNat_of_nonneg h0).symm⟩
  have hn : n ≤ 86400000 := by
    have := h1
    simp only [ONE_DAY] at this
    exact_mod_cast this
  have hmod : ((n : Int) % (2 ^ 64 : Int)).toNat = n := by
    rw [Int.emod_eq_of_lt (by positivity) (by exact_mod_cast by omega)]
    exact Int.toNat_natCast n
  have h2 : ((n : Int) % (2 ^ 32 : Int)).toNat = n := by
    rw [Int.emod_eq_of_lt (by positivity) (by exact_mod_cast by omega)]
    exact Int.toNat_natCast n
  have hdiv : n / 2 ^ 32 = 0 := Nat.div_eq_of_lt (by omega)
  have hm : n % 2 ^ 32 = n := Nat.mod_eq_of_lt (by omega)
  have hw0 : writeInt32BE ((0 : Nat) : Int) = [0, 0, 0, 0] := by
    norm_num [writeInt32BE]
  have hwn : writeInt32BE ((n : Nat) : Int) =
      [n / 2 ^ 24 % 256, n / 2 ^ 16 % 256, n / 2 ^ 8 % 256, n % 256] := by
    simp only [writeInt32BE]
    rw [h2]
  have henc : encodeExpiration (n : Int) =
      [0, 0, 0, 0, n / 2 ^ 24 % 256, n / 2 ^ 16 % 256, n / 2 ^ 8 % 256, n % 256] := by
    simp only [encodeExpiration, hmod, hdiv, hm, hw0, hwn]
    rfl
  rw [henc]
  simp only [decodeExpiration, readInt32, readUInt32, List.getD]
  norm_num
  have harith : n / 2 ^ 24 % 256 * 2 ^ 24 + n / 2 ^ 16 % 256 * 2 ^ 16 +
      n / 2 ^ 8 % 256 * 2 ^ 8 + n % 256 = n := by
    omega
  exact_mod_cast congrArg (Nat.cast : Nat → Int) harith

/-- The unencrypted key id is 16 bytes long. -/
theorem createPublicKeyHash_length (C : CryptoSuite) (h : GoodCrypto C) (pk : Buffer) :
    (createPublicKeyHash C pk).length = 16 := by
  simp [createPublicKeyHash, List.length_take, h.sha_len]

/-- A generated beacon is 48 bytes long. -/
theorem buildBeacon_length (C : CryptoSuite) (h : GoodCrypto C) (kx ke : Nat)
    (exp keyid pubKy : Buffer) (hk : keyid.length = 16) :
    (buildBeacon C kx ke exp keyid pubKy).length = 48 := by
  simp [buildBeacon, h.enc_len _ _ _ hk, List.length_take, h.hmac_len]

/-- On a stream decomposed as preamble public key, expiration field and
beacon part, with the preamble sizes right and the expiration in range,
parseBeacons runs its scanning loop over the beacon part. -/
theorem parseBeacons_structured (C : CryptoSuite) (pub exp rest : Buffer)
    (hpub : pub.length = 65) (hexp : exp.length = 8)
    (h0 : 0 ≤ decodeExpiration exp) (h1 : decodeExpiration exp ≤ ONE_DAY)
    (ld : Keypair) (addr : Buffer → Option Buffer) :
    parseBeacons C (some (pub ++ (exp ++ rest))) ld addr =
      parseLoop C pub exp ld.priv addr rest := by
  have hsl0 : bslice (pub ++ (exp ++ rest)) 0 65 = pub := by
    simp only [bslice, List.drop_zero, Nat.sub_zero]
    exact List.take_left' hpub
  have hsl1 : bslice (pub ++ (exp ++ rest)) 65 73 = exp := by
    simp only [bslice]
    rw [List.drop_left' hpub]
    exact List.take_left' hexp
  have hdrop : (pub ++ (exp ++ rest)).drop 73 = rest := by
    rw [← List.append_assoc]
    refine List.drop_left' ?_
    simp [hpub, hexp]
  simp only [parseBeacons, hsl0, hsl1, hdrop, hpub, hexp]
  rw [if_neg (by simp), if_neg (by simp), if_neg (by omega)]

/-- On a single full 48-byte slice the parse loop returns the match result
of that slice. -/
theorem parseLoop_block (C : CryptoSuite) (pub exp : Buffer) (lp : Nat)
    (addr : Buffer → Option Buffer) (bc : Buffer) (hbc : bc.length = 48) :
    parseLoop C pub exp lp addr bc =
      match matchBeacon C pub exp lp addr bc with
      | some k => .ok (some k)
      | none => .ok none := by
  have hne : bc ≠ [] := by
    intro h0
    rw [h0] at hbc
    simp at hbc
  have htake : bc.take 48 = bc := List.take_of_length_le (le_of_eq hbc)
  have hdrop : bc.drop 48 = [] := List.drop_eq_nil_of_le (le_of_eq hbc)
  rw [parseLoop, dif_neg hne]
  simp only [htake, hbc, ne_eq, not_true_eq_false, if_false]
  cases hm : matchBeacon C pub exp lp addr bc with
  | some k => simp
  | none =>
    simp only [hdrop]
    rw [parseLoop, dif_pos rfl]

/-- A beacon generated for the local device decrypts, resolves through an
address book that recognizes the sender, and passes the HMAC check, making
the matcher return the sender's key hash. -/
theorem matchBeacon_buildBeacon_hit (C : CryptoSuite) (h : GoodCrypto C)
    (A B ke : Keypair) (exp : Buffer) (addr : Buffer → Option Buffer)
    (haddr : addr (createPublicKeyHash C (C.pubOf A.priv)) = some (C.pubOf A.priv)) :
    matchBeacon C (C.pubOf ke.priv) exp B.priv addr
      (buildBeacon C A.priv ke.priv exp (createPublicKeyHash C (C.pubOf A.priv))
        (C.pubOf B.priv)) =
      some (createPublicKeyHash C (C.pubOf A.priv)) := by
  have hk16 : (createPublicKeyHash C (C.pubOf A.priv)).length = 16 :=
    createPublicKeyHash_length C h _
  have hsey : C.ecdh B.priv (C.pubOf ke.priv) = C.ecdh ke.priv (C.pubOf B.priv) :=
    h.ecdh_comm _ _
  have hsxy : C.ecdh B.priv (C.pubOf A.priv) = C.ecdh A.priv (C.pubOf B.priv) :=
    h.ecdh_comm _ _
  have henc32 : ∀ hkey iv,
      (C.aesEnc hkey iv (createPublicKeyHash C (C.pubOf A.priv))).length = 32 :=
    fun hkey iv => h.enc_len _ _ _ hk16
  have hhm16 : ∀ hkxy,
      ((C.hmac hkxy exp).take 16).length = 16 := by
    intro hkxy
    simp [List.length_take, h.hmac_len]
  simp only [matchBeacon, buildBeacon, hsey]
  rw [List.take_left' (henc32 _ _), h.dec_enc _ _ _ hk16]
  have hsl : bslice
      (C.aesEnc (bslice (C.hkdf (C.ecdh ke.priv (C.pubOf B.priv)) exp) 16 32)
        ((C.hkdf (C.ecdh ke.priv (C.pubOf B.priv)) exp).take 16)
        (createPublicKeyHash C (C.pubOf A.priv)) ++
        (C.hmac (C.hkdf (C.ecdh A.priv (C.pubOf B.priv)) exp) exp).take 16) 32 48 =
      (C.hmac (C.hkdf (C.ecdh A.priv (C.pubOf B.priv)) exp) exp).take 16 := by
    simp only [bslice]
    rw [List.drop_left' (henc32 _ _)]
    exact List.take_of_length_le (by rw [hhm16])
  simp only [haddr, hsxy]
  rw [hsl, if_pos rfl]

/-- A generated beacon whose decrypted key hash the address book does not
recognize is skipped by the matcher. -/
theorem matchBeacon_buildBeacon_miss (C : CryptoSuite) (h : GoodCrypto C)
    (A B ke : Keypair) (exp : Buffer) (addr : Buffer → Option Buffer)
    (haddr : addr (createPublicKeyHash C (C.pubOf A.priv)) = none) :
    matchBeacon C (C.pubOf ke.priv) exp B.priv addr
      (buildBeacon C A.priv ke.priv exp (createPublicKeyHash C (C.pubOf A.priv))
        (C.pubOf B.priv)) = none := by
  have hk16 : (createPublicKeyHash C (C.pubOf A.priv)).length = 16 :=
    createPublicKeyHash_length C h _
  have hsey : C.ecdh B.priv (C.pubOf ke.priv) = C.ecdh ke.priv (C.pubOf B.priv) :=
    h.ecdh_comm _ _
  have henc32 : ∀ hkey iv,
      (C.aesEnc hkey iv (createPublicKeyHash C (C.pubOf A.priv))).length = 32 :=
    fun hkey iv => h.enc_len _ _ _ hk16
  simp only [matchBeacon, buildBeacon, hsey]
  rw [List.take_left' (henc32 _ _), h.dec_enc _ _ _ hk16]
  simp only [haddr]

/-- For an in-range expiration and a single recipient the generator
produces the preamble followed by one beacon. -/
theorem generate_single (C : CryptoSuite) (A ke : Keypair) (pubKy : Buffer) (t : Int)
    (h0 : 0 ≤ t) (h1 : t ≤ ONE_DAY) :
    generatePreambleAndBeacons C (some [pubKy]) (some A) ke t =
      .ok (some (C.pubOf ke.priv ++ (encodeExpiration t ++
        buildBeacon C A.priv ke.priv (encodeExpiration t)
          (createPublicKeyHash C (C.pubOf A.priv)) pubKy))) := by
  simp only [generatePreambleAndBeacons]
  rw [if_neg (by simp only [ONE_DAY] at h1 ⊢; omega), if_neg (by simp)]
  simp [List.append_assoc]

/-- C1: Round-trip: for any ECDH secp256k1 keypairs A and B and any valid
expiration t, parsing the stream generated for recipient B with local
keypair A using B's keypair returns the hash of A's public key whenever the
address book maps that hash to A's public key, and returns null whenever
the address book is empty. -/
theorem generate_parse_roundtrip (C : CryptoSuite) (h : GoodCrypto C)
    (A B ke : Keypair) (t : Int) (h0 : 0 ≤ t) (h1 : t ≤ ONE_DAY)
    (addr : Buffer → Option Buffer)
    (haddr : addr (createPublicKeyHash C (C.pubOf A.priv)) = some (C.pubOf A.priv)) :
    parseOfGenerate C (some [C.pubOf B.priv]) (some A) ke t B addr =
      some (.ok (some (createPublicKeyHash C (C.pubOf A.priv)))) ∧
    parseOfGenerate C (some [C.pubOf B.priv]) (some A) ke t B (fun _ => none) =
      some (.ok none) := by
  have hk16 := createPublicKeyHash_length C h (C.pubOf A.priv)
  have hbc48 := buildBeacon_length C h A.priv ke.priv (encodeExpiration t)
    (createPublicKeyHash C (C.pubOf A.priv)) (C.pubOf B.priv) hk16
  have hdec := decodeExpiration_encodeExpiration t h0 h1
  have hgen := generate_single C A ke (C.pubOf B.priv) t h0 h1
  have hparse : ∀ ab : Buffer → Option Buffer,
      parseBeacons C (some (C.pubOf ke.priv ++ (encodeExpiration t ++
        buildBeacon C A.priv ke.priv (encodeExpiration t)
          (createPublicKeyHash C (C.pubOf A.priv)) (C.pubOf B.priv)))) B ab =
      match matchBeacon C (C.pubOf ke.priv) (encodeExpiration t) B.priv ab
          (buildBeacon C A.priv ke.priv (encodeExpiration t)
            (createPublicKeyHash C (C.pubOf A.priv)) (C.pubOf B.priv)) with
      | some k => .ok (some k)
      | none => .ok none := by
    intro ab
    rw [parseBeacons_structured C _ _ _ (h.pub_len ke.priv) (encodeExpiration_length t)
      (by rw [hdec]; exact h0) (by rw [hdec]; exact h1) B ab]
    exact parseLoop_block C _ _ _ _ _ hbc48
  constructor
  · rw [parseOfGenerate, hgen]
    simp only [hparse addr,
      matchBeacon_buildBeacon_hit C h A B ke (encodeExpiration t) addr haddr]
  · rw [parseOfGenerate, hgen]
    simp only [hparse (fun _ => none),
      matchBeacon_buildBeacon_miss C h A B ke (encodeExpiration t) (fun _ => none) rfl]

/-- Witness for the round-trip theorem at concrete keypairs 2, 3, ephemeral
5 and expiration 3600 under the toy suite. -/
theorem generate_parse_roundtrip_witness :
    parseOfGenerate toySuite (some [toySuite.pubOf 3]) (some ⟨2⟩) ⟨5⟩ 3600 ⟨3⟩
        (fun k => if k = createPublicKeyHash toySuite (toySuite.pubOf 2)
          then some (toySuite.pubOf 2) else none) =
      some (.ok (some (createPublicKeyHash toySuite (toySuite.pubOf 2)))) ∧
    parseOfGenerate toySuite (some [toySuite.pubOf 3]) (some ⟨2⟩) ⟨5⟩ 3600 ⟨3⟩
        (fun _ => none) = some (.ok none) :=
  generate_parse_roundtrip toySuite toySuite_good ⟨2⟩ ⟨3⟩ ⟨5⟩ 3600 (by decide)
    (by decide) _ (by simp)

/-- C9: parseBeacons called with a null beacon stream returns null without
throwing, for every crypto suite, local keypair and address book. -/
theorem parseBeacons_null_stream (C : CryptoSuite) (ld : Keypair)
    (addr : Buffer → Option Buffer) :
    parseBeacons C none ld addr = .ok none :=
  rfl

/-- C7 counterexample: with an empty recipient list and otherwise valid
arguments the generator returns null (modelled ok none), which is not an
empty beacon stream: no buffer at all is produced, in particular not the
empty one. -/
theorem generate_emptyList_returns_null_not_stream :
    generatePreambleAndBeacons toySuite (some []) (some ⟨2⟩) ⟨5⟩ 3600 = .ok none ∧
    (Except.ok none : Except GenError (Option Buffer)) ≠ .ok (some []) := by
  constructor
  · rfl
  · decide

/-- C7 amended: for an empty recipient list and otherwise valid arguments
the generator returns null without failing. -/
theorem generate_emptyList_ok_none (C : CryptoSuite) (kx ke : Keypair) (t : Int)
    (h0 : 0 ≤ t) (h1 : t ≤ ONE_DAY) :
    generatePreambleAndBeacons C (some []) (some kx) ke t = .ok none := by
  simp only [generatePreambleAndBeacons]
  rw [if_neg (by simp only [ONE_DAY] at h1 ⊢; omega)]
  simp

/-- Witness for the empty-list theorem at concrete arguments. -/
theorem generate_emptyList_ok_none_witness :
    generatePreambleAndBeacons toySuite (some []) (some ⟨2⟩) ⟨5⟩ 86400 = .ok none :=
  generate_emptyList_ok_none toySuite ⟨2⟩ ⟨5⟩ 86400 (by decide) (by decide)

/-- C4: the range guard of generatePreambleAndBeacons compares the
secondsUntilExpiration argument against ONE_DAY = 86400000, one day in
milliseconds, so the value 86401 seconds, which the claim says must throw
ArgumentRange, is accepted and produces a beacon stream. -/
theorem generate_accepts_86401_seconds :
    (generatePreambleAndBeacons toySuite (some [toySuite.pubOf 3]) (some ⟨2⟩) ⟨5⟩
      86401).isOk = true ∧
    generatePreambleAndBeacons toySuite (some [toySuite.pubOf 3]) (some ⟨2⟩) ⟨5⟩
      86401 ≠ .error .argumentRange ∧
    generatePreambleAndBeacons toySuite (some [toySuite.pubOf 3]) (some ⟨2⟩) ⟨5⟩
      86400001 = .error .argumentRange := by
  refine ⟨?_, ?_, ?_⟩ <;> decide

/-- When the beacon part has a length that is not a multiple of 48 the scan
loop never returns null: it either throws on the short final slice or
returns a key id matched in an earlier full slice. -/
theorem parseLoop_ne_ok_none (C : CryptoSuite) (pub exp : Buffer) (lp : Nat)
    (addr : Buffer → Option Buffer) :
    ∀ (n : Nat) (rest : Buffer), rest.length ≤ n → rest.length % 48 ≠ 0 →
      parseLoop C pub exp lp addr rest ≠ .ok none := by
  intro n
  induction n with
  | zero =>
    intro rest hle hmod
    have : rest.length = 0 := Nat.le_zero.mp hle
    omega
  | succ n ih =>
    intro rest hle hmod
    have hne : rest ≠ [] := by
      intro h0
      subst h0
      simp at hmod
    rw [parseLoop, dif_neg hne]
    by_cases hlen : (rest.take 48).length ≠ 48
    · rw [if_pos hlen]
      simp
    · push_neg at hlen
      have h48 : 48 ≤ rest.length := by
        rw [List.length_take] at hlen
        rcases Nat.le_total 48 rest.length with h | h
        · exact h
        · have := Nat.min_eq_right h
          omega
      rw [if_neg (by simp [hlen])]
      cases hm : matchBeacon C pub exp lp addr (rest.take 48) with
      | some k => simp
      | none =>
        apply ih
        · simp only [List.length_drop]
          omega
        · simp only [List.length_drop]
          omega

/-- C5 amended: a stream whose length is not 73 plus a non-negative
multiple of 48 makes parseBeacons throw unless a beacon in an earlier full
48-byte slice matches, in which case that key id is returned; in no case is
null returned.  A stream of exactly 73 bytes is not malformed and yields
null provided its expiration field is in range. -/
theorem parseBeacons_malformed_length (C : CryptoSuite) (ld : Keypair)
    (addr : Buffer → Option Buffer) (s : Buffer) :
    ((s.length < 73 ∨ (s.length - 73) % 48 ≠ 0) →
      parseBeacons C (some s) ld addr ≠ .ok none) ∧
    (s.length = 73 → 0 ≤ decodeExpiration (bslice s 65 73) →
      decodeExpiration (bslice s 65 73) ≤ ONE_DAY →
      parseBeacons C (some s) ld addr = .ok none) := by
  have lb0 : (bslice s 0 65).length = min 65 s.length := by
    simp [bslice, List.length_take, List.length_drop]
  have lb1 : (bslice s 65 73).length = min 8 (s.length - 65) := by
    simp [bslice, List.length_take, List.length_drop]
  constructor
  · intro hbad
    by_cases h65 : (bslice s 0 65).length ≠ 65
    · simp only [parseBeacons]
      rw [if_pos h65]
      simp
    · push_neg at h65
      simp only [parseBeacons]
      rw [if_neg (by simp [h65])]
      by_cases h8 : (bslice s 65 73).length ≠ 8
      · rw [if_pos h8]
        simp
      · push_neg at h8
        rw [if_neg (by simp [h8])]
        have hslen : 73 ≤ s.length := by
          rw [lb0] at h65
          rw [lb1] at h8
          omega
        by_cases hrange : decodeExpiration (bslice s 65 73) < 0 ∨
            decodeExpiration (bslice s 65 73) > ONE_DAY
        · rw [if_pos hrange]
          simp
        · rw [if_neg hrange]
          apply parseLoop_ne_ok_none C _ _ _ _ (s.drop 73).length _ le_rfl
          simp only [List.length_drop]
          omega
  · intro h73 hr0 hr1
    simp only [parseBeacons]
    rw [if_neg (by rw [lb0, h73]; simp),
      if_neg (by rw [lb1, h73]; simp),
      if_neg (by omega)]
    have hdrop : s.drop 73 = [] := List.drop_eq_nil_of_le (by omega)
    rw [hdrop, parseLoop, dif_pos rfl]

/-- C5 counterexample: a stream of exactly 73 bytes, all 255, has zero
beacons and per the claim should yield null, but parseBeacons throws
because the expiration field decodes to a negative value. -/
theorem parseBeacons_73bytes_throws :
    parseBeacons toySuite (some (List.replicate 73 255)) ⟨2⟩ (fun _ => none) =
      .error .expirationOutOfRange ∧
    (List.replicate 73 255 : Buffer).length = 73 := by
  constructor
  · decide
  · decide

/-- Witness for the malformed-length theorem: a 74-byte stream is rejected
without returning null, and a well-formed 73-byte stream of zero bytes
yields null. -/
theorem parseBeacons_malformed_length_witness :
    parseBeacons toySuite (some (List.replicate 74 0)) ⟨2⟩ (fun _ => none) ≠
      .ok none ∧
    parseBeacons toySuite (some (List.replicate 73 0)) ⟨2⟩ (fun _ => none) =
      .ok none :=
  ⟨(parseBeacons_malformed_length toySuite ⟨2⟩ (fun _ => none)
      (List.replicate 74 0)).1 (by decide),
   (parseBeacons_malformed_length toySuite ⟨2⟩ (fun _ => none)
      (List.replicate 73 0)).2 (by decide) (by decide) (by decide)⟩

/-- On a beacon part made of full 48-byte slices the scan loop returns the
first slice match, in stream order, and throws nothing. -/
theorem parseLoop_eq_findSome (C : CryptoSuite) (pub exp : Buffer) (lp : Nat)
    (addr : Buffer → Option Buffer) :
    ∀ (n : Nat) (rest : Buffer), rest.length ≤ n → rest.length % 48 = 0 →
      parseLoop C pub exp lp addr rest =
        .ok (List.findSome? (matchBeacon C pub exp lp addr) (chunks48 rest)) := by
  intro n
  induction n with
  | zero =>
    intro rest hle _
    have h0 : rest = [] := List.length_eq_zero.mp (Nat.le_zero.mp hle)
    subst h0
    rw [parseLoop, dif_pos rfl, chunks48, dif_pos rfl]
    simp
  | succ n ih =>
    intro rest hle hmod
    by_cases hne : rest = []
    · subst hne
      rw [parseLoop, dif_pos rfl, chunks48, dif_pos rfl]
      simp
    · have h48 : 48 ≤ rest.length := by
        have hpos : 0 < rest.length := List.length_pos.mpr hne
        omega
      have htlen : (rest.take 48).length = 48 := by
        rw [List.length_take]
        omega
      rw [parseLoop, dif_neg hne, if_neg (by simp [htlen]),
        chunks48, dif_neg hne]
      cases hm : matchBeacon C pub exp lp addr (rest.take 48) with
      | some k =>
        simp [List.findSome?_cons, hm]
      | none =>
        simp only [List.findSome?_cons, hm]
        apply ih
        · simp only [List.length_drop]
          omega
        · simp only [List.length_drop]
          omega

/-- C6: on a well-formed stream parseBeacons throws nothing and returns
the decrypted key id of the first beacon, in stream order over the 48-byte
slices from offset 73, whose decryption succeeds, whose address-book lookup
is non-null and whose HMAC matches; later beacons are not examined and
per-beacon failures are skipped silently. -/
theorem parseBeacons_first_match (C : CryptoSuite) (ld : Keypair)
    (addr : Buffer → Option Buffer) (s : Buffer)
    (h73 : 73 ≤ s.length) (hmod : (s.length - 73) % 48 = 0)
    (hr0 : 0 ≤ decodeExpiration (bslice s 65 73))
    (hr1 : decodeExpiration (bslice s 65 73) ≤ ONE_DAY) :
    parseBeacons C (some s) ld addr =
      .ok (List.findSome?
        (matchBeacon C (bslice s 0 65) (bslice s 65 73) ld.priv addr)
        (chunks48 (s.drop 73))) := by
  have lb0 : (bslice s 0 65).length = min 65 s.length := by
    simp [bslice, List.length_take, List.length_drop]
  have lb1 : (bslice s 65 73).length = min 8 (s.length - 65) := by
    simp [bslice, List.length_take, List.length_drop]
  simp only [parseBeacons]
  rw [if_neg (by rw [lb0]; omega), if_neg (by rw [lb1]; omega),
    if_neg (by omega)]
  apply parseLoop_eq_findSome C _ _ _ _ (s.drop 73).length _ le_rfl
  simp only [List.length_drop]
  omega

/-- Witness for the first-match theorem on a concrete well-formed 73-byte
stream with zero beacons. -/
theorem parseBeacons_first_match_witness :
    parseBeacons toySuite (some (List.replicate 73 0)) ⟨2⟩ (fun _ => some []) =
      .ok (List.findSome?
        (matchBeacon toySuite (bslice (List.replicate 73 0) 0 65)
          (bslice (List.replicate 73 0) 65 73) 2 (fun _ => some []))
        (chunks48 ((List.replicate 73 0).drop 73))) :=
  parseBeacons_first_match toySuite ⟨2⟩ (fun _ => some []) (List.replicate 73 0)
    (by decide) (by decide) (by decide) (by decide)

/-- C3: characterization of the role-assignment middleware: 401 and no
role on an unauthorized connection, otherwise beacon exactly for the
BEACON_KEY secret, replication exactly for any other resolved secret, and
public exactly when no secret resolves. -/
theorem roleAssignment_characterization (f : Nat → Option Buffer)
    (auth : Bool) (ident : Nat) :
    (auth = false →
      roleAssignmentMiddleware f auth ident = .error .unauthorized401) ∧
    (auth = true →
      ((roleAssignmentMiddleware f auth ident = .ok .beacon ↔
        f ident = some BEACON_KEY) ∧
       (roleAssignmentMiddleware f auth ident = .ok .replication ↔
        ∃ s, f ident = some s ∧ s ≠ BEACON_KEY) ∧
       (roleAssignmentMiddleware f auth ident = .ok .publicRole ↔
        f ident = none))) := by
  constructor
  · intro h
    subst h
    simp [roleAssignmentMiddleware]
  · intro h
    subst h
    cases hf : f ident with
    | none =>
      refine ⟨?_, ?_, ?_⟩ <;> simp [roleAssignmentMiddleware, hf]
    | some sec =>
      by_cases hb : sec = BEACON_KEY
      · subst hb
        refine ⟨?_, ?_, ?_⟩ <;> simp [roleAssignmentMiddleware, hf]
      · refine ⟨?_, ?_, ?_⟩ <;> simp [roleAssignmentMiddleware, hf, hb]

/-- Witness for the role-assignment characterization at concrete secret
maps. -/
theorem roleAssignment_characterization_witness :
    roleAssignmentMiddleware (fun _ => some BEACON_KEY) true 0 = .ok .beacon ∧
    roleAssignmentMiddleware (fun _ => none) false 0 = .error .unauthorized401 :=
  ⟨((roleAssignment_characterization (fun _ => some BEACON_KEY) true 0).2 rfl).1.mpr
      rfl,
   (roleAssignment_characterization (fun _ => none) false 0).1 rfl⟩

/-- C2: the id validator wired into salti compares the path id against the
unhashed public key of the caller, so a replication request whose id equals
createPublicKeyHash of that key, which the claim and the source comment at
thaliManager.js lines 89-93 say must be admitted, is rejected 403, while
the raw unhashed key is admitted instead. -/
theorem saltiIdValidator_rejects_hashed_id :
    saltiIdValidator (fun i => if i = 7 then some (toySuite.pubOf 2) else none) 7
        (createPublicKeyHash toySuite (toySuite.pubOf 2)) = false ∧
    localSeqGate (fun i => if i = 7 then some (toySuite.pubOf 2) else none) 7
        (createPublicKeyHash toySuite (toySuite.pubOf 2)) =
      some .forbidden403 ∧
    saltiIdValidator (fun i => if i = 7 then some (toySuite.pubOf 2) else none) 7
        (toySuite.pubOf 2) = true := by
  refine ⟨?_, ?_, ?_⟩ <;> decide

/-- C10: the router pipeline runs its stages in registration order; a
request reaches the ACL gate or the database router only on an authorized
connection, in which case the role-assignment stage has assigned exactly
one role; an unauthorized request is answered 401 at the first stage. -/
theorem thaliRouterPipeline_invariants {Req : Type} (f : Nat → Option Buffer)
    (acl : Role → Req → Bool) (db : Req → Response) (auth : Bool)
    (ident : Nat) (req : Req) :
    ((thaliRouterPipeline f acl db auth ident req).1 = [.roleAssignment] ∨
     (thaliRouterPipeline f acl db auth ident req).1 = [.roleAssignment, .aclGate] ∨
     (thaliRouterPipeline f acl db auth ident req).1 =
       [.roleAssignment, .aclGate, .dbRouter]) ∧
    (auth = false →
      (thaliRouterPipeline f acl db auth ident req).1 = [.roleAssignment] ∧
      (thaliRouterPipeline f acl db auth ident req).2 = .unauthorized401) ∧
    (auth = true →
      Stage.aclGate ∈ (thaliRouterPipeline f acl db auth ident req).1 ∧
      ∃! r : Role, roleAssignmentMiddleware f auth ident = .ok r) ∧
    ((Stage.aclGate ∈ (thaliRouterPipeline f acl db auth ident req).1 ∨
      Stage.dbRouter ∈ (thaliRouterPipeline f acl db auth ident req).1) →
      auth = true) := by
  cases auth with
  | false =>
    have hmw : roleAssignmentMiddleware f false ident = .error .unauthorized401 := by
      simp [roleAssignmentMiddleware]
    refine ⟨?_, ?_, ?_, ?_⟩ <;> simp [thaliRouterPipeline, hmw]
  | true =>
    obtain ⟨r, hr⟩ : ∃ r, roleAssignmentMiddleware f true ident = .ok r := by
      cases hf : f ident with
      | none => exact ⟨.publicRole, by simp [roleAssignmentMiddleware, hf]⟩
      | some sec =>
        by_cases hb : sec = BEACON_KEY
        · exact ⟨.beacon, by simp [roleAssignmentMiddleware, hf, hb]⟩
        · exact ⟨.replication, by simp [roleAssignmentMiddleware, hf, hb]⟩
    have huniq : ∃! r0 : Role, roleAssignmentMiddleware f true ident = .ok r0 :=
      ⟨r, hr, fun y hy => by
        rw [hr] at hy
        exact (Except.ok.inj hy).symm⟩
    refine ⟨?_, ?_, ?_, ?_⟩
    · by_cases hacl : acl r req
      · right; right
        simp [thaliRouterPipeline, hr, hacl]
      · right; left
        simp [thaliRouterPipeline, hr, hacl]
    · intro h
      simp at h
    · intro _
      refine ⟨?_, huniq⟩
      by_cases hacl : acl r req <;> simp [thaliRouterPipeline, hr, hacl]
    · intro _
      rfl

/-- Witness for the pipeline invariants at a concrete authorized request. -/
theorem thaliRouterPipeline_invariants_witness :
    Stage.aclGate ∈ (thaliRouterPipeline (fun _ => none) (fun _ _ => true)
      (fun _ => Response.handledByDb) true 0 (0 : Nat)).1 ∧
    ∃! r : Role, roleAssignmentMiddleware (fun _ => none) true 0 = .ok r :=
  (thaliRouterPipeline_invariants (fun _ => none) (fun _ _ => true)
    (fun _ => Response.handledByDb) true 0 0).2.2.1 rfl

/-- An available observation identical to the entry it produced is never
accepted again. -/
theorem acceptObservation_self (e : RawPeerEvent) :
    acceptObservation (entryOfEvent e) e = false := by
  simp [acceptObservation, entryOfEvent]

/-- C8: two consecutive raw peer events carrying an identical tuple make
the registry emit at most one outbound availability event: the second,
identical observation is always ignored. -/
theorem registry_debounce_duplicate (st : RegistryState) (e : RawPeerEvent) :
    (handleRawPeerEvent (handleRawPeerEvent st e).1 e).2 = [] ∧
    ((handleRawPeerEvent st e).2 ++
      (handleRawPeerEvent (handleRawPeerEvent st e).1 e).2).length ≤ 1 := by
  cases ha : e.available
  · cases hst : st (e.connectionType, e.peerId) with
    | none =>
      simp [handleRawPeerEvent, ha, hst]
    | some en =>
      simp [handleRawPeerEvent, ha, hst]
  · cases hst : st (e.connectionType, e.peerId) with
    | none =>
      simp [handleRawPeerEvent, ha, hst, acceptObservation_self]
    | some en =>
      by_cases hacc : acceptObservation en e
      · simp [handleRawPeerEvent, ha, hst, hacc, acceptObservation_self]
      · simp [handleRawPeerEvent, ha, hst, hacc]
